import Mathlib

/-!
Verification of the S7 protocol client engine.

This development shallowly embeds the byte-level request assembly, response
validation and chunking logic of the S7 client (`src/client.rs`,
`src/transport.rs`, `src/constant.rs`) and proves or refutes the frozen
claims about it.  Byte buffers are `List Nat` (each entry a byte value),
machine integers are `Nat` with explicit `% 256` / `% 65536` where the Rust
code truncates, and fallible code returns `Except` / `Option` (with `none`
standing for a Rust panic, an out-of-fuel loop, or a missing transport
response).
-/

namespace S7

/-- Big-endian u16 from two bytes (the `byteorder::BigEndian::read_u16` /
`Word::value` convention used throughout the client). -/
def u16be (hi lo : Nat) : Nat := hi * 256 + lo

/-! ## Constants from `constant.rs` -/

def WL_BIT : Nat := 0x01
def WL_BYTE : Nat := 0x02
def WL_CHAR : Nat := 0x03
def WL_WORD : Nat := 0x04
def WL_INT : Nat := 0x05
def WL_DWORD : Nat := 0x06
def WL_DINT : Nat := 0x07
def WL_REAL : Nat := 0x08
def WL_COUNTER : Nat := 0x1C
def WL_TIMER : Nat := 0x1D

/-- `constant::data_size_byte`. -/
def data_size_byte (word_length : Nat) : Nat :=
  if word_length = WL_BIT ∨ word_length = WL_BYTE ∨ word_length = WL_CHAR then 1
  else if word_length = WL_WORD ∨ word_length = WL_INT ∨ word_length = WL_COUNTER ∨
      word_length = WL_TIMER then 2
  else if word_length = WL_DWORD ∨ word_length = WL_DINT ∨ word_length = WL_REAL then 4
  else 0

def TS_RES_BIT : Nat := 3
def TS_RES_BYTE : Nat := 4
def TS_RES_INT : Nat := 5
def TS_RES_REAL : Nat := 7
def TS_RES_OCTET : Nat := 9

def SIZE_HEADER_READ : Nat := 31
def SIZE_HEADER_WRITE : Nat := 35

/-- `constant::Area` with its wire codes. -/
inductive Area
  | processInput
  | processOutput
  | merker
  | dataBausteine
  | counter
  | timer
  deriving DecidableEq, Repr

def Area.code : Area → Nat
  | .processInput => 0x81
  | .processOutput => 0x82
  | .merker => 0x83
  | .dataBausteine => 0x84
  | .counter => 0x1C
  | .timer => 0x1D

/-! ## Errors

Modelled from the spec: `error.rs` is referenced by `client.rs` but is not
under `src/`, so the error enumeration is taken from the spec's failure
taxonomy (section 7).  Constructors keep the shape used at each `client.rs`
return site; string/byte payloads carried by the Rust variants are elided,
and the numeric values of the named `error::*` code constants (unknown
without `error.rs`) are kept symbolic as `ErrCode`. -/

inductive ErrCode
  | isoInvalidPdu
  | isoInvalidDataSize
  | cliInvalidPlcAnswer
  | cliCannotStartPlc
  | cliCannotStopPlc
  | cliAlreadyRun
  | cliAlreadyStop
  | cliBufferTooSmall
  deriving DecidableEq, Repr

inductive Err
  /-- `Error::Response { code }` with a named `error::*` constant. -/
  | response (code : ErrCode)
  /-- `Error::CPU { code }` with a numeric code taken from the response bytes. -/
  | cpu (code : Nat)
  /-- `Error::CPU { code }` with a named `error::*` constant. -/
  | cpuSym (code : ErrCode)
  /-- `Error::InvalidInput { .. }` (input string elided). -/
  | invalidInput
  /-- `Error::InvalidResponse { .. }` (reason and bytes elided). -/
  | invalidResponse
  /-- `Error::PduLength(n)`. -/
  | pduLength (n : Nat)
  deriving DecidableEq, Repr

/-! ## Telegram templates from `transport.rs` -/

def PDU_NEGOTIATION_TELEGRAM : List Nat :=
  [3, 0, 0, 25, 2, 240, 128,
   50, 1, 0, 0, 4, 0, 0, 8, 0, 0, 240, 0, 0, 1, 0, 1, 0, 30]

def MRD_HEADER : List Nat :=
  [0x03, 0x00, 0x00, 0x1f, 0x02, 0xf0, 0x80, 0x32, 0x01, 0x00, 0x00,
   0x00, 0x01, 0x00, 0x0e, 0x00, 0x00, 0x04, 0x01]

def MRD_ITEM : List Nat :=
  [0x12, 0x0a, 0x10, 0x02, 0x00, 0x00, 0x00, 0x00, 0x84, 0x00, 0x00, 0x00]

def MWR_HEADER : List Nat :=
  [0x03, 0x00, 0x00, 0x1f, 0x02, 0xf0, 0x80, 0x32, 0x01, 0x00, 0x00,
   0x05, 0x00, 0x00, 0x0e, 0x00, 0x00, 0x05, 0x01]

def MWR_PARAM : List Nat :=
  [0x12, 0x0a, 0x10, 0x02, 0x00, 0x00, 0x00, 0x00, 0x84, 0x00, 0x00, 0x00]

def BLOCK_INFO_TELEGRAM : List Nat :=
  [0x03, 0x00, 0x00, 0x25,
   0x02, 0xf0, 0x80, 0x32,
   0x07, 0x00, 0x00, 0x05,
   0x00, 0x00, 0x08, 0x00,
   0x0c, 0x00, 0x01, 0x12,
   0x04, 0x11, 0x43, 0x03,
   0x00, 0xff, 0x09, 0x00,
   0x08, 0x30,
   0x41,
   0x30, 0x30, 0x30, 0x30, 0x30,
   0x41]

def MIN_SZL_FIRST_TELEGRAM : Nat := 42

def TELEGRAM_MIN_RESPONSE : Nat := 19

def PDU_START : Nat := 0x28
def PDU_STOP : Nat := 0x29
def PDU_ALREADY_STARTED : Nat := 0x02
def PDU_ALREADY_STOPPED : Nat := 0x07

def MAX_VARS_MULTI_READ_WRITE : Nat := 20

/-! ## Single-item read/write: normalization and chunking (`client.rs` `read`/`write`) -/

/-- The shared preamble of `Client::read` and `Client::write`
(`client.rs` lines 668-690 / 795-817): area-driven word-length override,
word-size lookup, bit clamping and byte-granularity collapse.  Returns the
adjusted `(amount, word_size, word_len)`. -/
def normalize (area : Area) (amount word_len : Nat) : Except Err (Nat × Nat × Nat) :=
  let wl : Nat :=
    match area with
    | .counter => WL_COUNTER
    | .timer => WL_TIMER
    | _ => word_len
  let ws := data_size_byte wl
  if ws = 0 then .error (.response .isoInvalidDataSize)
  else if wl = WL_BIT then .ok (1, ws, wl)
  else if wl ≠ WL_COUNTER ∧ wl ≠ WL_TIMER then .ok (amount * ws, 1, WL_BYTE)
  else .ok (amount, ws, wl)

/-- `(pdu_length - 18) / word_size` (`client.rs` line 698). -/
def readMaxElements (pdu ws : Nat) : Nat := (pdu - 18) / ws

/-- `(pdu_length - 35) / word_size` (`client.rs` line 821). -/
def writeMaxElements (pdu ws : Nat) : Nat := (pdu - 35) / ws

/-- The per-telegram `num_elements` sequence produced by the
`while tot_elements > 0` loops of `read`/`write`: each iteration takes
`min tot_elements max_elements`.  The loop is embedded with fuel
(`tot` suffices whenever `1 ≤ maxe`, since every iteration then removes at
least one element). -/
def chunksAux (maxe : Nat) : Nat → Nat → List Nat
  | 0, _ => []
  | fuel + 1, tot =>
    if tot = 0 then []
    else min tot maxe :: chunksAux maxe fuel (tot - min tot maxe)

def chunks (tot maxe : Nat) : List Nat := chunksAux maxe tot tot

/-- The chunk plan of `Client::read`: normalization, the `pdu_length == 0`
guard, then the loop's `num_elements` sequence. -/
def readChunks (area : Area) (amount word_len pdu : Nat) : Except Err (List Nat) :=
  match normalize area amount word_len with
  | .error e => .error e
  | .ok (a, ws, _) =>
    if pdu = 0 then .error (.pduLength 0)
    else .ok (chunks a (readMaxElements pdu ws))

/-- The chunk plan of `Client::write` (no `pdu_length == 0` guard in the
source). -/
def writeChunks (area : Area) (amount word_len pdu : Nat) : Except Err (List Nat) :=
  match normalize area amount word_len with
  | .error e => .error e
  | .ok (a, ws, _) => .ok (chunks a (writeMaxElements pdu ws))

theorem chunksAux_spec (maxe : Nat) (hm : 1 ≤ maxe) :
    ∀ fuel tot, tot ≤ fuel →
      (chunksAux maxe fuel tot).sum = tot ∧ ∀ n ∈ chunksAux maxe fuel tot, n ≤ maxe := by
  intro fuel
  induction fuel with
  | zero =>
    intro tot ht
    have : tot = 0 := Nat.le_zero.mp ht
    subst this
    simp [chunksAux]
  | succ f ih =>
    intro tot ht
    by_cases h0 : tot = 0
    · subst h0; simp [chunksAux]
    · have h1 : 1 ≤ min tot maxe := by omega
      have h2 : tot - min tot maxe ≤ f := by omega
      obtain ⟨hs, hb⟩ := ih (tot - min tot maxe) h2
      constructor
      · simp only [chunksAux, if_neg h0, List.sum_cons, hs]
        omega
      · intro n hn
        simp only [chunksAux, if_neg h0, List.mem_cons] at hn
        rcases hn with h | h
        · omega
        · exact hb n h

/-- C3: for every single-item read or write, the sum of the `num_elements`
values over all generated telegrams equals the normalized amount, and no
telegram carries `num_elements` greater than `(pduLength − 18) / wordSize`
for reads or `(pduLength − 35) / wordSize` for writes (stated under the
hypotheses that normalization succeeds, the PDU length is nonzero, and each
direction's `max_elements` is at least 1 — otherwise the source loop would
never terminate). -/
theorem read_write_chunk_invariant (area : Area) (amount word_len pdu a ws wl : Nat)
    (h : normalize area amount word_len = .ok (a, ws, wl))
    (hpdu : 0 < pdu)
    (hr : 1 ≤ readMaxElements pdu ws)
    (hw : 1 ≤ writeMaxElements pdu ws) :
    (readChunks area amount word_len pdu = .ok (chunks a (readMaxElements pdu ws)) ∧
      (chunks a (readMaxElements pdu ws)).sum = a ∧
      ∀ n ∈ chunks a (readMaxElements pdu ws), n ≤ readMaxElements pdu ws) ∧
    (writeChunks area amount word_len pdu = .ok (chunks a (writeMaxElements pdu ws)) ∧
      (chunks a (writeMaxElements pdu ws)).sum = a ∧
      ∀ n ∈ chunks a (writeMaxElements pdu ws), n ≤ writeMaxElements pdu ws) := by
  have hread := chunksAux_spec (readMaxElements pdu ws) hr a a (Nat.le_refl a)
  have hwrite := chunksAux_spec (writeMaxElements pdu ws) hw a a (Nat.le_refl a)
  refine ⟨⟨?_, hread.1, hread.2⟩, ⟨?_, hwrite.1, hwrite.2⟩⟩
  · simp [readChunks, h, Nat.pos_iff_ne_zero.mp hpdu]
  · simp [writeChunks, h]

/-- Witness for C3 at a concrete input: a byte-granular read/write of 50
bytes against a 60-byte PDU splits into chunks summing to 50, each within
the respective bound (`readMaxElements = 42`, `writeMaxElements = 25`). -/
theorem read_write_chunk_invariant_witness :
    (readChunks .dataBausteine 50 WL_BYTE 60 = .ok (chunks 50 (readMaxElements 60 1)) ∧
      (chunks 50 (readMaxElements 60 1)).sum = 50 ∧
      ∀ n ∈ chunks 50 (readMaxElements 60 1), n ≤ readMaxElements 60 1) ∧
    (writeChunks .dataBausteine 50 WL_BYTE 60 = .ok (chunks 50 (writeMaxElements 60 1)) ∧
      (chunks 50 (writeMaxElements 60 1)).sum = 50 ∧
      ∀ n ∈ chunks 50 (writeMaxElements 60 1), n ≤ writeMaxElements 60 1) :=
  read_write_chunk_invariant .dataBausteine 50 WL_BYTE 60 50 1 WL_BYTE rfl
    (by decide) (by decide) (by decide)

/-! ## Single-item read: response processing (`client.rs` `read`, lines 704-783) -/

/-- The per-chunk buffer copy of `Client::read` (`client.rs` 763-773):
`for k in offset..size_requested { if i == end { break } buffer[k] = response[i]; i += 1 }`
with `i` starting at 25.  The iteration count is `size_requested - offset`
(zero when `offset ≥ size_requested`), so the `i == end` break never fires;
each surviving iteration stores `response[25 + (k - offset)]` at `buffer[k]`.
`List.set` is a no-op out of bounds, where Rust would panic; the claims only
exercise in-bounds buffers. -/
def copyChunk (buffer : List Nat) (offset size_requested : Nat) (response : List Nat) :
    List Nat :=
  (List.range (size_requested - offset)).foldl
    (fun b j => b.set (offset + j) (response.getD (25 + j) 0)) buffer

/-- The `while tot_elements > 0` loop of `Client::read`, given the sequence
of transport responses (one per telegram, in order).  Telegram assembly does
not influence the buffer filling and is elided; the response checks
(`len < 25`, `response[21] ≠ 0xFF`) and the `offset`/`tot_elements` updates
follow the source.  `none` models a missing response (transport failure) or
fuel exhaustion (the source loop would not have terminated). -/
def readLoopAux (ws maxe : Nat) :
    Nat → Nat → Nat → List (List Nat) → List Nat → Option (Except Err (List Nat))
  | 0, tot, _, _, buffer => if tot = 0 then some (.ok buffer) else none
  | fuel + 1, tot, offset, responses, buffer =>
    if tot = 0 then some (.ok buffer)
    else
      let num := min tot maxe
      let size_requested := num * ws
      match responses with
      | [] => none
      | r :: rest =>
        if r.length < 25 then some (.error (.response .isoInvalidDataSize))
        else if r.getD 21 0 ≠ 0xFF then some (.error (.cpu (r.getD 21 0)))
        else
          readLoopAux ws maxe fuel (tot - num) (offset + size_requested) rest
            (copyChunk buffer offset size_requested r)

/-- `Client::read`: normalization, the `pdu_length == 0` guard, then the
chunk loop. -/
def read (area : Area) (amount word_len pdu : Nat) (responses : List (List Nat))
    (buffer : List Nat) : Option (Except Err (List Nat)) :=
  match normalize area amount word_len with
  | .error e => some (.error e)
  | .ok (a, ws, _) =>
    if pdu = 0 then some (.error (.pduLength 0))
    else readLoopAux ws (readMaxElements pdu ws) a a 0 responses buffer

/-- `Client::ag_read`: `read` on the DataBausteine area with `WL_BYTE`
(`db_number` and `start` only affect the elided telegram bytes). -/
def ag_read (db_number start amount pdu : Nat) (responses : List (List Nat))
    (buffer : List Nat) : Option (Except Err (List Nat)) :=
  let _ := db_number
  let _ := start
  read .dataBausteine amount WL_BYTE pdu responses buffer

/-- C1: with `pdu_length = 20` (`max_elements = 2`) an `ag_read` of 3 bytes
issues two chunks; the first response carries payload `0xAA 0xBB` at byte 25
and the second carries `0xCC`, but the returned buffer is
`[0xAA, 0xBB, 0x00]`: the second chunk's copy loop `for k in
offset..size_requested` is empty once `offset ≥ size_requested`, so the
claimed concatenation `[0xAA, 0xBB, 0xCC]` is not produced. -/
theorem read_second_chunk_not_copied :
    ag_read 1 0 3 20
      [[0, 0, 0, 0, 0, 0, 0, 0, 0, 0, 0, 0, 0, 0, 0, 0, 0, 0, 0, 0, 0, 255, 0, 0, 0, 170, 187],
       [0, 0, 0, 0, 0, 0, 0, 0, 0, 0, 0, 0, 0, 0, 0, 0, 0, 0, 0, 0, 0, 255, 0, 0, 0, 204, 221]]
      [0, 0, 0] = some (.ok [170, 187, 0]) ∧
    ([170, 187, 0] : List Nat) ≠ [170, 187, 204] := by
  exact ⟨rfl, by decide⟩

/-! ## CPU control (`client.rs` `cold_warm_start_stop`, lines 1124-1147) -/

/-- `Client::cold_warm_start_stop` applied to the transport response.
`none` models the Rust panic on indexing `response[19]` / `response[18]`
out of bounds (possible only at `response.len() = 19`). -/
def cold_warm_start_stop (response : List Nat) (start_cmp : Nat) (start_err : ErrCode)
    (already_cmp : Nat) (already_err : ErrCode) : Option (Except Err Unit) :=
  if response.length < TELEGRAM_MIN_RESPONSE then
    some (.error (.response .isoInvalidPdu))
  else
    match response.get? 19, response.get? 18 with
    | some b19, some b18 =>
      if b19 ≠ start_cmp then some (.error (.response start_err))
      else if b18 = already_cmp then some (.error (.response already_err))
      else some (.ok ())
    | _, _ => none

inductive CpuCmd
  | start
  | restart
  | stop
  deriving DecidableEq, Repr

/-- Expected PDU-control code per command (`transport::PDU_START` for
start/restart, `transport::PDU_STOP` for stop). -/
def cmdCmp : CpuCmd → Nat
  | .start => PDU_START
  | .restart => PDU_START
  | .stop => PDU_STOP

/-- Failure code when `response[19]` mismatches
(`CLI_CANNOT_START_PLC` / `CLI_CANNOT_STOP_PLC`). -/
def cmdStartErr : CpuCmd → ErrCode
  | .start => .cliCannotStartPlc
  | .restart => .cliCannotStartPlc
  | .stop => .cliCannotStopPlc

/-- Already-in-state sentinel compared against `response[18]`
(`PDU_ALREADY_STARTED` / `PDU_ALREADY_STOPPED`). -/
def cmdAlreadyCmp : CpuCmd → Nat
  | .start => PDU_ALREADY_STARTED
  | .restart => PDU_ALREADY_STARTED
  | .stop => PDU_ALREADY_STOPPED

/-- Failure code for the already-in-state case
(`CLI_ALREADY_RUN` / `CLI_ALREADY_STOP`). -/
def cmdAlreadyErr : CpuCmd → ErrCode
  | .start => .cliAlreadyRun
  | .restart => .cliAlreadyRun
  | .stop => .cliAlreadyStop

/-- `Client::start` / `Client::restart` / `Client::stop`: the common
dispatch with each command's telegram parameters (`client.rs` 918-948). -/
def runCpuCmd (c : CpuCmd) (response : List Nat) : Option (Except Err Unit) :=
  cold_warm_start_stop response (cmdCmp c) (cmdStartErr c) (cmdAlreadyCmp c) (cmdAlreadyErr c)

/-- C7: for every CPU control command, a response shorter than 19 bytes
fails with InvalidPdu; otherwise (whenever bytes 18 and 19 exist) a
mismatched `response[19]` fails CannotStart/CannotStop, a matching
`response[19]` with `response[18]` equal to the already-sentinel fails
AlreadyRun/AlreadyStop, and any other response succeeds. -/
theorem cpu_control_response_validation (c : CpuCmd) (response : List Nat) :
    (response.length < 19 → runCpuCmd c response = some (.error (.response .isoInvalidPdu))) ∧
    (∀ b18 b19, response.get? 18 = some b18 → response.get? 19 = some b19 →
      runCpuCmd c response = some (
        if b19 ≠ cmdCmp c then .error (.response (cmdStartErr c))
        else if b18 = cmdAlreadyCmp c then .error (.response (cmdAlreadyErr c))
        else .ok ())) := by
  constructor
  · intro h
    simp [runCpuCmd, cold_warm_start_stop, TELEGRAM_MIN_RESPONSE, h]
  · intro b18 b19 h18 h19
    have h19lt : 19 < response.length := by
      by_contra hc
      rw [List.get?_eq_none.mpr (by omega)] at h19
      cases h19
    have hlen : ¬ response.length < TELEGRAM_MIN_RESPONSE := by
      simp only [TELEGRAM_MIN_RESPONSE]
      omega
    unfold runCpuCmd cold_warm_start_stop
    rw [if_neg hlen, h19, h18]
    by_cases hb : b19 = cmdCmp c <;> by_cases ha : b18 = cmdAlreadyCmp c <;>
      simp [hb, ha]

/-- Witness for C7: `stop` against a 20-byte response with
`response[19] = 0x29` and `response[18] = 0x07` fails AlreadyStop. -/
theorem cpu_control_response_validation_witness :
    runCpuCmd .stop [0, 0, 0, 0, 0, 0, 0, 0, 0, 0, 0, 0, 0, 0, 0, 0, 0, 0, 7, 41] =
      some (.error (.response .cliAlreadyStop)) := by
  have h := (cpu_control_response_validation .stop
    [0, 0, 0, 0, 0, 0, 0, 0, 0, 0, 0, 0, 0, 0, 0, 0, 0, 0, 7, 41]).2 7 41 rfl rfl
  simpa [cmdCmp, cmdAlreadyCmp, cmdAlreadyErr, PDU_STOP, PDU_ALREADY_STOPPED] using h

/-! ## SZL reading (`client.rs` `read_szl`, lines 1053-1122) -/

structure SZLHeader where
  length_header : Nat
  number_of_data_record : Nat
  deriving DecidableEq, Repr

structure S7SZL where
  header : SZLHeader
  data : List Nat
  deriving DecidableEq, Repr

/-- The `validate` closure of `read_szl` (`client.rs` 1065-1078): length
check against `MIN_SZL_FIRST_TELEGRAM + size`, then
`if BigEndian::read_u16(res[27..]) != 0 && res[29] != 0xFF` fail with
`CLI_INVALID_PLC_ANSWER`. -/
def szlValidate (res : List Nat) (size : Nat) : Except Err Unit :=
  if res.length < MIN_SZL_FIRST_TELEGRAM + size then
    .error (.response .isoInvalidPdu)
  else if u16be (res.getD 27 0) (res.getD 28 0) ≠ 0 ∧ res.getD 29 0 ≠ 0xFF then
    .error (.cpuSym .cliInvalidPlcAnswer)
  else .ok ()

/-- The `while !done` loop of `read_szl` (`client.rs` 1105-1120): each
"next" response is validated, the done flag re-read from byte 26, and
`szl.data` is reassigned to `vec![0u8; len]` (with `len` captured from the
first part) while `length_header` is doubled.  `nexts` supplies the
transport responses for the successive "SZL next" telegrams; `none` models
a missing response. -/
def readSzlLoop (len : Nat) : List (List Nat) → Bool → S7SZL → Option (Except Err S7SZL)
  | _, true, szl => some (.ok szl)
  | [], false, _ => none
  | r :: rest, false, szl =>
    match szlValidate r 0 with
    | .error e => some (.error e)
    | .ok _ =>
      let done := r.getD 26 0 = 0
      readSzlLoop len rest done
        ⟨⟨szl.header.length_header + szl.header.length_header,
          szl.header.number_of_data_record⟩,
         List.replicate len 0⟩

/-- `Client::read_szl` given the first-telegram response and the responses
to the subsequent "SZL next" telegrams (telegram assembly, the sequence-id
bookkeeping and the dead `offset` accumulator do not influence the result
and are elided). -/
def read_szl (first : List Nat) (nexts : List (List Nat)) : Option (Except Err S7SZL) :=
  match szlValidate first 0 with
  | .error e => some (.error e)
  | .ok _ =>
    let data_szl := u16be (first.getD 31 0) (first.getD 32 0) - 8
    match szlValidate first data_szl with
    | .error e => some (.error e)
    | .ok _ =>
      let done := first.getD 26 0 = 0
      let header : SZLHeader :=
        ⟨u16be (first.getD 37 0) (first.getD 38 0) * 2,
         u16be (first.getD 39 0) (first.getD 40 0)⟩
      let len := data_szl
      let data := (first.drop 41).take data_szl
      readSzlLoop len nexts done ⟨header, data⟩

/-- C5: `read_szl`'s telegram validation accepts a response whose global
error word at bytes 27–28 is nonzero as long as byte 29 equals 0xFF — the
source condition is a conjunction (`error != 0 && res[29] != 0xFF`), not
the claimed disjunction, so a nonzero error word alone does not fail. -/
theorem szl_validate_accepts_nonzero_error_word :
    u16be ((((List.replicate 42 0).set 28 1).set 29 255).getD 27 0)
        ((((List.replicate 42 0).set 28 1).set 29 255).getD 28 0) = 1 ∧
    (((List.replicate 42 0).set 28 1).set 29 255).getD 29 0 = 0xFF ∧
    szlValidate (((List.replicate 42 0).set 28 1).set 29 255) 0 = .ok () := by
  exact ⟨rfl, rfl, rfl⟩

/-- C6: on a two-part SZL response whose first part carries data `[1, 2]`
and whose second part carries data `[3, 4, 5, 6]`, `read_szl` returns
`data = [0, 0]`: the "next" iteration reassigns the accumulator to
`vec![0u8; len]` instead of appending, so the claimed concatenation
`[1, 2, 3, 4, 5, 6]` (indeed, any of the parts' bytes) is not returned.
In the first part below: byte 26 = 1 (not done), bytes 31–32 = 10 (so
`data_szl = 2`), bytes 37–40 give the header, data starts at byte 41; in
the second part: byte 26 = 0 (done), bytes 31–32 = 4, data at byte 41. -/
theorem read_szl_discards_data_on_next_part :
    read_szl
      [0, 0, 0, 0, 0, 0, 0, 0, 0, 0, 0, 0, 0, 0, 0, 0, 0, 0, 0, 0,
       0, 0, 0, 0, 2, 0, 1, 0, 0, 255, 0, 0, 10, 0, 0, 0, 0, 0, 3, 0,
       1, 1, 2, 0]
      [[0, 0, 0, 0, 0, 0, 0, 0, 0, 0, 0, 0, 0, 0, 0, 0, 0, 0, 0, 0,
        0, 0, 0, 0, 0, 0, 0, 0, 0, 255, 0, 0, 4, 0, 0, 0, 0, 0, 0, 0,
        0, 3, 4, 5, 6, 0]] =
      some (.ok ⟨⟨12, 1⟩, [0, 0]⟩) ∧
    ([0, 0] : List Nat) ≠ [1, 2, 3, 4, 5, 6] := by
  exact ⟨rfl, by decide⟩

/-! ## Multi-var read/write (`client.rs` `read_multi_vars` / `write_multi_vars`) -/

/-- `client::S7DataItem` (numeric fields as byte/word values). -/
structure S7DataItem where
  area : Nat
  word_len : Nat
  db_num : Nat
  start : Nat
  size : Nat
  buffer : List Nat
  err : Option Err
  deriving DecidableEq, Repr

def concatAll : List (List Nat) → List Nat
  | [] => []
  | l :: ls => l ++ concatAll ls

/-- One 12-byte item record of `read_multi_vars` (`client.rs` 435-471):
`MRD_ITEM` patched with word length, size, DB number, area and the 24-bit
address (byte starts shifted left by 3, wrapping in `u16`; bit, counter and
timer starts used as-is). -/
def mrdItemRecord (item : S7DataItem) : List Nat :=
  let s := MRD_ITEM
  let s := s.set 3 item.word_len
  let s := (s.set 4 (item.size / 256 % 256)).set 5 (item.size % 256)
  let s := (s.set 6 (item.db_num / 256 % 256)).set 7 (item.db_num % 256)
  let s := s.set 8 item.area
  let address :=
    if item.word_len = WL_BIT ∨ item.word_len = WL_COUNTER ∨ item.word_len = WL_TIMER then
      item.start
    else item.start * 8 % 65536
  ((s.set 11 (address % 256)).set 10 (address / 256 % 256)).set 9 (address / 65536 % 256)

/-- The request telegram of `read_multi_vars` (`client.rs` 426-477):
`MRD_HEADER` with parameter length `N * 12 + 2` at bytes 13–14 and item
count at byte 18, followed by the item records, with the total size
`19 + 12N` patched at bytes 2–3. -/
def mrdRequest (items : List S7DataItem) : List Nat :=
  let header_len := items.length * 12 + 2
  let request := MRD_HEADER
  let request := (request.set 13 (header_len / 256 % 256)).set 14 (header_len % 256)
  let request := request.set 18 (items.length % 256)
  let request := request ++ concatAll (items.map mrdItemRecord)
  let offset := 19 + items.length * 12
  (request.set 2 (offset / 256 % 256)).set 3 (offset % 256)

/-- The response-parsing loop of `read_multi_vars` (`client.rs` 498-524):
walk the response from offset 21, and per item either copy the payload into
its buffer (dividing bit-counts by 8 unless the transport size is Octet,
Real or Bit, rounding the advance up to even) or record a per-item CPU
error and skip the 4-byte item header. -/
def parseMultiReadItems : List S7DataItem → Nat → List Nat → List S7DataItem
  | [], _, _ => []
  | it :: rest, offset, response =>
    let s := response.drop offset
    if s.getD 0 0 = 0xFF then
      let raw := u16be (s.getD 2 0) (s.getD 3 0)
      let item_size :=
        if s.getD 1 0 ≠ TS_RES_OCTET ∧ s.getD 1 0 ≠ TS_RES_REAL ∧ s.getD 1 0 ≠ TS_RES_BIT then
          raw / 8
        else raw
      let it2 : S7DataItem :=
        ⟨it.area, it.word_len, it.db_num, it.start, it.size, (s.drop 4).take item_size, it.err⟩
      let adv := if item_size % 2 ≠ 0 then item_size + 1 else item_size
      it2 :: parseMultiReadItems rest (offset + 4 + adv) response
    else
      (⟨it.area, it.word_len, it.db_num, it.start, it.size, it.buffer,
        some (.cpu (s.getD 0 0))⟩ :
        S7DataItem) :: parseMultiReadItems rest (offset + 4) response

/-- Outcome of a multi-var call: the telegrams handed to `transport.send`,
the returned `Result`, and the (possibly updated) item list. -/
structure MultiVarsOutcome where
  sent : List (List Nat)
  result : Except Err Unit
  items : List S7DataItem
  deriving Repr

/-- `Client::read_multi_vars` (`client.rs` 414-526) against a single
transport response: the > 20 guard, request assembly, then the global
checks (length ≥ 22, error word at 17–18, item count at byte 20) and the
per-item parse. -/
def read_multi_vars (items : List S7DataItem) (response : List Nat) : MultiVarsOutcome :=
  if items.length > MAX_VARS_MULTI_READ_WRITE then ⟨[], .error .invalidInput, items⟩
  else
    let request := mrdRequest items
    if response.length < 22 then ⟨[request], .error .invalidResponse, items⟩
    else
      let error_code := u16be (response.getD 17 0) (response.getD 18 0)
      if error_code ≠ 0 then ⟨[request], .error (.cpu error_code), items⟩
      else if response.getD 20 0 ≠ items.length ∨
          response.getD 20 0 > MAX_VARS_MULTI_READ_WRITE then
        ⟨[request], .error .invalidResponse, items⟩
      else ⟨[request], .ok (), parseMultiReadItems items 21 response⟩

/-- C8: `read_multi_vars` with more than 20 items fails with InvalidInput
before anything is sent, leaving every item untouched. -/
theorem read_multi_vars_too_many_items (items : List S7DataItem) (response : List Nat)
    (h : items.length > 20) :
    read_multi_vars items response = ⟨[], .error .invalidInput, items⟩ := by
  unfold read_multi_vars
  rw [if_pos]
  exact h

/-- Witness for C8: 21 identical items are rejected with InvalidInput, no
telegram sent, items returned unchanged. -/
theorem read_multi_vars_too_many_items_witness :
    read_multi_vars (List.replicate 21 ⟨0x84, 2, 5, 0, 1, [0], none⟩) [] =
      ⟨[], .error .invalidInput, List.replicate 21 ⟨0x84, 2, 5, 0, 1, [0], none⟩⟩ :=
  read_multi_vars_too_many_items (List.replicate 21 ⟨0x84, 2, 5, 0, 1, [0], none⟩) []
    (by decide)

/-- One 12-byte parameter record of `write_multi_vars` (`client.rs`
552-576): like the read case but the start address is used without the
`<< 3` shift. -/
def mwrParamRecord (item : S7DataItem) : List Nat :=
  let p := MWR_PARAM
  let p := p.set 3 item.word_len
  let p := p.set 8 item.area
  let p := (p.set 4 (item.size / 256 % 256)).set 5 (item.size % 256)
  let p := (p.set 6 (item.db_num / 256 % 256)).set 7 (item.db_num % 256)
  let address := item.start
  ((p.set 11 (address % 256)).set 10 (address / 256 % 256)).set 9 (address / 65536 % 256)

/-- `item_data_size` (`client.rs` 591-596): `size * 2` for Counter/Timer
word lengths, else `size` (values are `u16`-ranged in the source). -/
def itemDataSize (word_len size : Nat) : Nat :=
  if word_len = WL_TIMER ∨ word_len = WL_COUNTER then size * 2 else size

/-- Transport-size byte of a write data record (`client.rs` 585-589). -/
def transportSizeCode (word_len : Nat) : Nat :=
  if word_len = WL_BIT then TS_RES_BIT
  else if word_len = WL_COUNTER ∨ word_len = WL_TIMER then TS_RES_OCTET
  else TS_RES_BYTE

/-- The payload copy `for (c, b) in item.buffer { s7_data_item[c+4] = b }`
(`client.rs` 609-611) into the fixed 6-entry vector; `none` models the Rust
panic on an out-of-bounds vector index. -/
def fillDataBytes : List Nat → Nat → List Nat → Option (List Nat)
  | v, _, [] => some v
  | v, c, b :: bs =>
    if c + 4 < v.length then fillDataBytes (v.set (c + 4) b) (c + 1) bs else none

/-- The fixed 6-entry data-record vector before the payload copy
(`client.rs` 582-607): `vec![0; 6]` with the reserved byte, the
transport-size byte, and the big-endian bit/byte length field at bytes 2–3
(`u16`, wrapping). -/
def dataRecordInit (word_len size : Nat) : List Nat :=
  let v := (List.replicate 6 0).set 0 0
  let v := v.set 1 (transportSizeCode word_len)
  let ids := itemDataSize word_len size
  let lenField :=
    if transportSizeCode word_len ≠ TS_RES_OCTET ∧ transportSizeCode word_len ≠ TS_RES_BIT
    then ids * 8 % 65536 else ids % 65536
  (v.set 2 (lenField / 256 % 256)).set 3 (lenField % 256)

theorem dataRecordInit_length (word_len size : Nat) :
    (dataRecordInit word_len size).length = 6 := by
  simp [dataRecordInit]

/-- One data record of `write_multi_vars` (`client.rs` 581-616): the fixed
6-entry vector, the payload copy, and the odd-size padding write at index
`item_data_size + 4`; `none` models the panic on an out-of-bounds index. -/
def buildDataRecord (word_len size : Nat) (buffer : List Nat) : Option (List Nat) :=
  let ids := itemDataSize word_len size
  match fillDataBytes (dataRecordInit word_len size) 0 buffer with
  | none => none
  | some v2 =>
    if ids % 2 ≠ 0 then
      if ids + 4 < v2.length then some (v2.set (ids + 4) 0) else none
    else some v2

/-- `ids + 1` when the item data size is odd (`client.rs` 613-616), used by
the offset / data-length accumulators. -/
def adjustedDataSize (word_len size : Nat) : Nat :=
  let ids := itemDataSize word_len size
  if ids % 2 ≠ 0 then ids + 1 else ids

/-- The data section of `write_multi_vars`: concatenated data records plus
the accumulated `data_length` (each item contributes its adjusted data size
plus the 4-byte record header). -/
def buildAllData : List S7DataItem → Option (List Nat × Nat)
  | [] => some ([], 0)
  | it :: rest =>
    match buildDataRecord it.word_len it.size it.buffer with
    | none => none
    | some r =>
      match buildAllData rest with
      | none => none
      | some (bs, dl) => some (r ++ bs, adjustedDataSize it.word_len it.size + 4 + dl)

/-- The request telegram of `write_multi_vars` (`client.rs` 533-634) up to
the `transport.send` call: the > 20 guard, `MWR_HEADER` with the parameter
length `item_count * MRD_HEADER.len() + 2` at bytes 13–14 (the source uses
`MRD_HEADER.len() = 19` here) and item count at byte 18, the parameter
records, the data records, the PDU-size check, and the total-size /
data-length patches at bytes 2–3 and 15–16.  The outer `none` models a
panic inside a data record. -/
def writeMultiVarsRequest (pdu : Nat) (items : List S7DataItem) :
    Option (Except Err (List Nat)) :=
  if items.length > MAX_VARS_MULTI_READ_WRITE then some (.error .invalidInput)
  else
    let par_length := items.length * MRD_HEADER.length + 2
    let request := MWR_HEADER
    let request := (request.set 13 (par_length / 256 % 256)).set 14 (par_length % 256)
    let request := request.set 18 (items.length % 256)
    let request := request ++ concatAll (items.map mwrParamRecord)
    match buildAllData items with
    | none => none
    | some (dataBytes, data_length) =>
      let request := request ++ dataBytes
      let offset := MWR_HEADER.length + items.length * MWR_PARAM.length + data_length
      if offset > pdu then some (.error (.pduLength pdu))
      else
        let request := (request.set 2 (offset / 256 % 256)).set 3 (offset % 256)
        let request :=
          (request.set 15 (data_length / 256 % 256)).set 16 (data_length % 256)
        some (.ok request)

/-- Byte `i` of a successfully assembled request, `none` otherwise. -/
def okRequestByte (o : Option (Except Err (List Nat))) (i : Nat) : Option Nat :=
  match o with
  | some (.ok r) => some (r.getD i 0)
  | _ => none

/-- C2: for a `write_multi_vars` call with one item, the parameter-length
field written big-endian at bytes 13–14 of the assembled request is
`1 × 19 + 2 = 21` (`0x0015`), not the claimed `1 × 12 + 2 = 14`
(`0x000E`) — the source multiplies by `MRD_HEADER.len() = 19` instead of
the 12-byte parameter-record length; the item-count byte at offset 18 does
equal N. -/
theorem write_multi_vars_param_length_mismatch :
    okRequestByte (writeMultiVarsRequest 240 [⟨0x84, 2, 1, 0, 2, [171, 205], none⟩]) 13 =
      some 0 ∧
    okRequestByte (writeMultiVarsRequest 240 [⟨0x84, 2, 1, 0, 2, [171, 205], none⟩]) 14 =
      some 21 ∧
    okRequestByte (writeMultiVarsRequest 240 [⟨0x84, 2, 1, 0, 2, [171, 205], none⟩]) 18 =
      some 1 ∧
    u16be 0 21 = 1 * 19 + 2 ∧ (21 : Nat) ≠ 1 * 12 + 2 := by
  exact ⟨rfl, rfl, rfl, rfl, by decide⟩

/-- C10, part of the proof: filling a fixed 6-entry record fails exactly
when more than 2 payload bytes are pushed. -/
theorem fillDataBytes_none_iff (bs : List Nat) :
    ∀ v : List Nat, v.length = 6 → ∀ c : Nat,
      (fillDataBytes v c bs = none ↔ bs ≠ [] ∧ 2 < c + bs.length) := by
  induction bs with
  | nil => intro v hv c; simp [fillDataBytes]
  | cons b rest ih =>
    intro v hv c
    have h6 : (c + 4 < v.length) = (c + 4 < 6) := by rw [hv]
    simp only [fillDataBytes, h6]
    by_cases hc : c + 4 < 6
    · rw [if_pos hc, ih (v.set (c + 4) b) (by simpa using hv) (c + 1)]
      rcases rest with _ | ⟨b2, rest2⟩
      · simp only [ne_eq, not_true_eq_false, false_and, List.length_nil,
          List.length_cons, false_iff, not_and, not_lt]
        intro _
        omega
      · simp only [ne_eq, reduceCtorEq, not_false_eq_true, true_and, List.length_cons]
        omega
    · rw [if_neg hc]
      simp only [ne_eq, reduceCtorEq, not_false_eq_true, true_and, List.length_cons,
        true_iff]
      omega

/-- Helper for C10: a payload longer than 2 bytes always overruns the fixed
6-entry record. -/
theorem buildDataRecord_none_of_long (word_len size : Nat) (buffer : List Nat)
    (hb : 2 < buffer.length) : buildDataRecord word_len size buffer = none := by
  have hne : buffer ≠ [] := by
    intro h
    rw [h] at hb
    simp at hb
  unfold buildDataRecord
  rw [(fillDataBytes_none_iff buffer (dataRecordInit word_len size)
    (dataRecordInit_length word_len size) 0).mpr ⟨hne, by omega⟩]

/-- C10: the per-item data record of `write_multi_vars` is built in a fixed
6-entry vector, so (for coherent items, whose buffer holds exactly
`itemDataSize` payload bytes) the build is total exactly when
`itemDataSize ≤ 2`; any payload longer than 2 bytes indexes past the
vector's end (`none`, a panic in the source) instead of returning an error;
and for Counter/Timer items `itemDataSize ≤ 2` means `size ≤ 1`. -/
theorem write_multi_vars_data_record_totality (word_len size : Nat) (buffer : List Nat) :
    (buffer.length = itemDataSize word_len size →
      ((buildDataRecord word_len size buffer).isSome ↔ itemDataSize word_len size ≤ 2)) ∧
    (2 < buffer.length → buildDataRecord word_len size buffer = none) ∧
    ((word_len = WL_COUNTER ∨ word_len = WL_TIMER) →
      (itemDataSize word_len size ≤ 2 ↔ size ≤ 1)) := by
  refine ⟨?_, buildDataRecord_none_of_long word_len size buffer, ?_⟩
  · intro hcoh
    constructor
    · intro hsome
      by_contra h3
      rw [buildDataRecord_none_of_long word_len size buffer (by omega)] at hsome
      simp at hsome
    · intro h2
      rcases buffer with _ | ⟨a, _ | ⟨b, _ | ⟨c3, rest⟩⟩⟩
      · simp only [List.length_nil] at hcoh
        unfold buildDataRecord
        simp [fillDataBytes, ← hcoh]
      · simp only [List.length_cons, List.length_nil] at hcoh
        unfold buildDataRecord
        simp [fillDataBytes, ← hcoh, dataRecordInit_length]
      · simp only [List.length_cons, List.length_nil] at hcoh
        unfold buildDataRecord
        simp [fillDataBytes, ← hcoh, dataRecordInit_length]
      · simp only [List.length_cons] at hcoh
        omega
  · intro hwl
    rcases hwl with h | h <;> subst h <;>
      simp only [itemDataSize, WL_COUNTER, WL_TIMER] <;> norm_num

/-- Witness for C10 at concrete inputs: a 3-byte byte-granular item
(`itemDataSize = 3`) is not buildable, i.e. the iff instantiates to
`isSome ↔ 3 ≤ 2`. -/
theorem write_multi_vars_data_record_totality_witness :
    ((buildDataRecord WL_BYTE 3 [1, 2, 3]).isSome ↔ itemDataSize WL_BYTE 3 ≤ 2) ∧
    ((buildDataRecord WL_BYTE 2 [1, 2]).isSome ↔ itemDataSize WL_BYTE 2 ≤ 2) :=
  ⟨(write_multi_vars_data_record_totality WL_BYTE 3 [1, 2, 3]).1 rfl,
   (write_multi_vars_data_record_totality WL_BYTE 2 [1, 2]).1 rfl⟩

/-! ## Block info request (`client.rs` `get_ag_block_info`, lines 1170-1189) -/

/-- The `get_ag_block_info` request: `BLOCK_INFO_TELEGRAM` with the block
type at offset 30 and the block number encoded by the successive
divide/modulo-by-powers-of-ten steps of the source at offsets 31..35
(each byte truncated `as u8`). -/
def blockInfoRequest (block_type block_number : Nat) : List Nat :=
  let s := BLOCK_INFO_TELEGRAM
  let s := s.set 30 block_type
  let s := s.set 31 ((block_number / 10000 + 0x30) % 256)
  let n := block_number % 10000
  let s := s.set 32 ((n / 1000 + 0x30) % 256)
  let n := n % 1000
  let s := s.set 33 ((n / 100 + 0x30) % 256)
  let n := n % 100
  let s := s.set 34 ((n / 10 + 0x30) % 256)
  let n := n % 10
  s.set 35 ((n + 0x30) % 256)

/-- C9: for every block number below 100000, the `get_ag_block_info`
request encodes it as 5 ASCII decimal digits at telegram offsets 31..35
(each digit value plus 0x30). -/
theorem block_number_ascii_encoding (block_type block_number : Nat)
    (h : block_number < 100000) :
    (blockInfoRequest block_type block_number).getD 31 0 =
      block_number / 10000 % 10 + 0x30 ∧
    (blockInfoRequest block_type block_number).getD 32 0 =
      block_number / 1000 % 10 + 0x30 ∧
    (blockInfoRequest block_type block_number).getD 33 0 =
      block_number / 100 % 10 + 0x30 ∧
    (blockInfoRequest block_type block_number).getD 34 0 =
      block_number / 10 % 10 + 0x30 ∧
    (blockInfoRequest block_type block_number).getD 35 0 =
      block_number % 10 + 0x30 := by
  refine ⟨?_, ?_, ?_, ?_, ?_⟩
  · have e : (blockInfoRequest block_type block_number).getD 31 0 =
        (block_number / 10000 + 0x30) % 256 := rfl
    rw [e]
    omega
  · have e : (blockInfoRequest block_type block_number).getD 32 0 =
        (block_number % 10000 / 1000 + 0x30) % 256 := rfl
    rw [e]
    omega
  · have e : (blockInfoRequest block_type block_number).getD 33 0 =
        (block_number % 10000 % 1000 / 100 + 0x30) % 256 := rfl
    rw [e]
    omega
  · have e : (blockInfoRequest block_type block_number).getD 34 0 =
        (block_number % 10000 % 1000 % 100 / 10 + 0x30) % 256 := rfl
    rw [e]
    omega
  · have e : (blockInfoRequest block_type block_number).getD 35 0 =
        (block_number % 10000 % 1000 % 100 % 10 + 0x30) % 256 := rfl
    rw [e]
    omega

/-- Witness for C9 at the claim's concrete inputs 12345 and 7 (block type
0x41 = DB): the digit bytes are {0x31,0x32,0x33,0x34,0x35} and
{0x30,0x30,0x30,0x30,0x37}. -/
theorem block_number_ascii_encoding_witness :
    ((blockInfoRequest 0x41 12345).getD 31 0 = 12345 / 10000 % 10 + 0x30 ∧
      (blockInfoRequest 0x41 12345).getD 32 0 = 12345 / 1000 % 10 + 0x30 ∧
      (blockInfoRequest 0x41 12345).getD 33 0 = 12345 / 100 % 10 + 0x30 ∧
      (blockInfoRequest 0x41 12345).getD 34 0 = 12345 / 10 % 10 + 0x30 ∧
      (blockInfoRequest 0x41 12345).getD 35 0 = 12345 % 10 + 0x30) ∧
    ((blockInfoRequest 0x41 7).getD 31 0 = 7 / 10000 % 10 + 0x30 ∧
      (blockInfoRequest 0x41 7).getD 32 0 = 7 / 1000 % 10 + 0x30 ∧
      (blockInfoRequest 0x41 7).getD 33 0 = 7 / 100 % 10 + 0x30 ∧
      (blockInfoRequest 0x41 7).getD 34 0 = 7 / 10 % 10 + 0x30 ∧
      (blockInfoRequest 0x41 7).getD 35 0 = 7 % 10 + 0x30) :=
  ⟨block_number_ascii_encoding 0x41 12345 (by decide),
   block_number_ascii_encoding 0x41 7 (by decide)⟩

/-- C4: the PDU negotiation telegram's requested-PDU-length field at offsets
23–24 (big-endian) is 0x001E = 30, not the 0x01E0 = 480 claimed (and stated
by the source's own comment "PDU Length Requested = HI-LO Here Default 480
bytes"). -/
theorem pdu_negotiation_telegram_requests_30 :
    PDU_NEGOTIATION_TELEGRAM.length = 25 ∧
    u16be (PDU_NEGOTIATION_TELEGRAM.getD 23 0) (PDU_NEGOTIATION_TELEGRAM.getD 24 0) = 30 ∧
    (30 : Nat) ≠ 0x01E0 := by
  refine ⟨rfl, rfl, by decide⟩

end S7
